import Mathlib

/-!
Verification development for the Weather-Dashboard lead-prediction pipeline.

The definitions below are a shallow embedding, over rational numbers and
lists, of the analysis code in src/analysis: the two weather classifiers,
the lead-source classifier and daily aggregation, the per-year streak
tracker, the feature engineering (weather flags and per-year trailing
3-day averages), the chronological cross-validation index splitter, the
holdout-validation preparation, the MAPE metric, and the seasonal
projection builder.  Missing numeric observations are modelled as
Option values (none = missing); the source reads such fields through a
defaulting accessor, which is embedded as Option.getD.
-/

namespace Lawn

/-- Weather quality label produced by classify_day_weather in
weather_momentum_analysis.py, model_validation.py and
seasonal_weather_interaction.py.  The source uses the strings nice,
ok and bad; the three constructors stand for those strings. -/
inductive Quality where
  | nice
  | ok
  | bad
deriving DecidableEq, Repr

/-- Weather fields of one daily record, as read by the two weather
classifiers.  none stands for a missing observation. -/
structure WRow where
  temp_max : Option ℚ
  precip_in : Option ℚ
  snowfall_in : Option ℚ
  snow_depth : Option ℚ
  sunshine_hrs : Option ℚ
  rain_in : Option ℚ
deriving DecidableEq, Repr

/-- Embedding of classify_weather_condition
(src/analysis/lawn_lead_prediction.py, lines 199-217).  Each field is
read with a default of 0 for a missing value, exactly as the source
does with row.get(field, 0) or 0; the source also binds precip_in and
temp_max with defaults 0 and 50 but the coarse rules never use them. -/
def classify_weather_condition (row : WRow) : String :=
  let snowfall := row.snowfall_in.getD 0
  let rain := row.rain_in.getD 0
  let sunshine := row.sunshine_hrs.getD 0
  if snowfall > 1/10 ∨ row.snow_depth.getD 0 > 1 then ("Snow")
  else if rain > 1/4 then ("Rain")
  else if rain > 1/20 then ("Light Rain")
  else if sunshine ≥ 8 then ("Sunny")
  else if sunshine ≥ 4 then ("Partly Cloudy")
  else ("Cloudy/Overcast")

/-- Coarse classification written from the words of spec section 4.1:
the 6-rule priority list evaluated in order, first match wins.  This is
the spec-side definition compared against classify_weather_condition. -/
def spec_classify_condition (row : WRow) : String :=
  if row.snowfall_in.getD 0 > 1/10 ∨ row.snow_depth.getD 0 > 1 then ("Snow")
  else if row.rain_in.getD 0 > 1/4 then ("Rain")
  else if row.rain_in.getD 0 > 1/20 then ("Light Rain")
  else if row.sunshine_hrs.getD 0 ≥ 8 then ("Sunny")
  else if row.sunshine_hrs.getD 0 ≥ 4 then ("Partly Cloudy")
  else ("Cloudy/Overcast")

/-- Embedding of classify_day_weather
(src/analysis/weather_momentum_analysis.py lines 30-46, identical copies
in model_validation.py lines 23-38 and
seasonal_weather_interaction.py).  Missing fields default to 0, except
temp_max which defaults to 50. -/
def classify_day_weather (row : WRow) : Quality :=
  let sunshine := row.sunshine_hrs.getD 0
  let temp := row.temp_max.getD 50
  let precip := row.precip_in.getD 0
  let snow := row.snowfall_in.getD 0
  if snow > 1/10 ∨ row.snow_depth.getD 0 > 1 then Quality.bad
  else if precip > 1/5 then Quality.bad
  else if sunshine ≥ 7 ∧ temp ≥ 55 then Quality.nice
  else if sunshine ≥ 5 ∧ temp ≥ 50 then Quality.ok
  else if sunshine < 3 ∨ temp < 42 then Quality.bad
  else Quality.ok

/-- Explicit substitution of the neutral defaults of spec section 4.1
(snowfall 0, precip 0, rain 0, sunshine 0, snow depth 0, temp_max 50)
for every missing field of a weather record. -/
def fillDefaults (r : WRow) : WRow :=
  { temp_max := some (r.temp_max.getD 50)
    precip_in := some (r.precip_in.getD 0)
    snowfall_in := some (r.snowfall_in.getD 0)
    snow_depth := some (r.snow_depth.getD 0)
    sunshine_hrs := some (r.sunshine_hrs.getD 0)
    rain_in := some (r.rain_in.getD 0) }

/-- Per-day output of the streak tracker build_streaks
(src/analysis/weather_momentum_analysis.py lines 62-102): the two streak
counters and the previous-day and previous-2-day quality labels recorded
for that day. -/
structure StreakRow where
  nice_streak : Nat
  bad_streak : Nat
  prev_day_quality : Option Quality
  prev_2day_quality : Option Quality
deriving DecidableEq, Repr

/-- Loop body of build_streaks, threaded over one year of qualities in
date order.  nc and bc are the running counters nice_count and
bad_count, p1 and p2 the last and second-to-last qualities seen
(the source keeps them as the tail of its qualities list). -/
def streaksAux (nc bc : Nat) (p1 p2 : Option Quality) : List Quality → List StreakRow
  | [] => []
  | q :: rest =>
    let nc2 := if q = Quality.nice then nc + 1 else 0
    let bc2 := if q = Quality.bad then bc + 1 else 0
    ⟨nc2, bc2, p1, p2⟩ :: streaksAux nc2 bc2 (some q) p1 rest

/-- Streak rows for one year of day qualities, starting from the initial
state nice_count = 0, bad_count = 0, empty qualities list, exactly as
build_streaks re-initialises at each year of its outer loop. -/
def build_streaks_year (qs : List Quality) : List StreakRow :=
  streaksAux 0 0 none none qs

/-- Embedding of build_streaks over several years: the source iterates
the years of the data and restarts the scan from the initial state for
each year, so the whole computation is a map of the per-year scan over
the year groups (each group in date-ascending order). -/
def build_streaks (years : List (List Quality)) : List (List StreakRow) :=
  years.map build_streaks_year

/-- One day of the momentum pipeline input: its day-of-week index
(0 = Monday .. 6 = Sunday) and its weather fields. -/
structure MDay where
  dow : Nat
  w : WRow
deriving DecidableEq, Repr

/-- Embedding of the Sunday removal in load_data
(src/analysis/weather_momentum_analysis.py line 25): the momentum
pipeline keeps only rows with dow < 6, in date order. -/
def momentum_dow_filter (days : List MDay) : List MDay :=
  days.filter fun d => d.dow < 6

/-- Day qualities the streak scan of the momentum pipeline runs over:
classify_day_weather applied to each retained (non-Sunday) day. -/
def momentum_qualities (days : List MDay) : List Quality :=
  (momentum_dow_filter days).map fun d => classify_day_weather d.w

/-- Streak rows produced by the momentum pipeline for one year of days:
build_streaks applied to the Sunday-filtered, date-ordered qualities. -/
def momentum_streaks_year (days : List MDay) : List StreakRow :=
  build_streaks_year (momentum_qualities days)

/-- One row of the merged daily leads-plus-weather table
(output csv daily_leads_weather.csv): calendar fields, lead count and
the weather observation.  date is a day ordinal used for ordering. -/
structure MRow where
  date : Int
  year : Int
  dow : Nat
  day_of_season : Int
  total_leads : ℚ
  temp_mean : Option ℚ
  wind_max_mph : Option ℚ
  w : WRow
deriving DecidableEq, Repr

/-- Mean of the present values of a list of optional rationals, none if
no value is present.  This embeds the pandas mean aggregation, which
skips missing values and yields a missing result on an all-missing
input (min_periods = 1 for the rolling windows). -/
def meanOpt (l : List (Option ℚ)) : Option ℚ :=
  let vs := l.filterMap id
  if vs.isEmpty then none else some (vs.sum / (vs.length : ℚ))

/-- Mean of a list of rationals (sum divided by length). -/
def meanQ (l : List ℚ) : ℚ :=
  l.sum / (l.length : ℚ)

/-- Rows of the same year up to and including position i of the
date-ordered table: the sub-series that df.loc of the year mask selects
when the source computes its per-year rolling averages. -/
def sameYearPrefix (rows : List MRow) (i : Nat) (y : Int) : List MRow :=
  (rows.take (i+1)).filter fun r => r.year == y

/-- Trailing 3-day rolling mean at position i of the date-ordered table,
restricted to year y: the mean of the present values among the last at
most 3 same-year observations up to and including position i.  This
embeds Series.rolling(3, min_periods 1).mean() applied to the year
sub-series, as in engineer_features
(src/analysis/lawn_lead_prediction.py lines 589-594 and
model_validation.py lines 48-52). -/
def roll3At (rows : List MRow) (f : MRow → Option ℚ) (i : Nat) (y : Int) : Option ℚ :=
  let s := (sameYearPrefix rows i y).map f
  meanOpt (s.drop (s.length - 3))

/-- Engineered row: the source row together with the derived feature
columns added by engineer_features. -/
structure ERow where
  row : MRow
  is_snow : ℚ
  is_rainy : ℚ
  is_sunny : ℚ
  year_trend : ℚ
  temp_max_3d_avg : Option ℚ
  sunshine_3d_avg : Option ℚ
deriving DecidableEq, Repr

/-- Feature columns computed for the row at position i of the
date-ordered table, per engineer_features: binary weather flags with
missing values filled by 0, the linear year trend, and the per-year
trailing 3-day averages of temp_max and sunshine_hrs. -/
def engineerRow (rows : List MRow) (i : Nat) (r : MRow) : ERow :=
  { row := r
    is_snow := if r.w.snowfall_in.getD 0 > 1/20 ∨ r.w.snow_depth.getD 0 > 1/2 then 1 else 0
    is_rainy := if r.w.rain_in.getD 0 > 1/10 then 1 else 0
    is_sunny := if r.w.sunshine_hrs.getD 0 ≥ 8 then 1 else 0
    year_trend := ((r.year - 2021 : ℤ) : ℚ)
    temp_max_3d_avg := roll3At rows (fun x => x.w.temp_max) i r.year
    sunshine_3d_avg := roll3At rows (fun x => x.w.sunshine_hrs) i r.year }

/-- Embedding of engineer_features (src/analysis/lawn_lead_prediction.py
lines 580-596 and the identical copy in model_validation.py lines
41-54), applied to the date-sorted merged table (the source sorts by
date first; the embedding takes the date-ordered sequence as input). -/
def engineer_features (rows : List MRow) : List ERow :=
  rows.enum.map fun p => engineerRow rows p.1 p.2

/-- Embedding of the fixed full-years filter
df[df.year.isin([2021, 2022, 2023, 2024, 2025])] used by both the model
builder and the holdout validator. -/
def full_years_filter (rows : List MRow) : List MRow :=
  rows.filter fun r =>
    r.year == 2021 || r.year == 2022 || r.year == 2023 || r.year == 2024 || r.year == 2025

/-- Embedding of df.dropna(subset temp_max, sunshine_hrs) in
run_holdout_validation: keep only rows where both observations are
present. -/
def holdout_dropna (rows : List MRow) : List MRow :=
  rows.filter fun r => r.w.temp_max.isSome && r.w.sunshine_hrs.isSome

/-- Training partition of the holdout validation: engineered rows of the
years 2021-2024. -/
def holdout_train_years (rows : List ERow) : List ERow :=
  rows.filter fun e =>
    e.row.year == 2021 || e.row.year == 2022 || e.row.year == 2023 || e.row.year == 2024

/-- Test partition of the holdout validation: engineered rows of the
year 2025. -/
def holdout_test_year (rows : List ERow) : List ERow :=
  rows.filter fun e => e.row.year == 2025

/-- Data preparation of run_holdout_validation
(src/analysis/model_validation.py lines 57-84): filter to the years
2021-2025, drop rows with missing temp_max or sunshine_hrs, engineer
features, then partition into the 2021-2024 training table and the 2025
test table.  Every metric the validator reports (MAE, R squared, MAPE,
season totals, weekly, day-of-week and weather-bucket breakdowns) is a
function of this pair: the model is fitted on the first component and
scored on the second. -/
def holdout_prep (t : List MRow) : List ERow × List ERow :=
  let df := engineer_features (holdout_dropna (full_years_filter t))
  (holdout_train_years df, holdout_test_year df)

/-- Test-block size of scikit-learn TimeSeriesSplit with 5 splits on n
samples: n divided by (n_splits + 1), per the library definition the
source relies on in train_and_evaluate
(src/analysis/lawn_lead_prediction.py lines 610-611). -/
def tss_test_size (n : Nat) : Nat := n / 6

/-- Start position of the evaluation block of fold k (k = 0..4) of
TimeSeriesSplit with 5 splits: the library takes test starts
n - (5 - k) * test_size. -/
def tss_test_start (n k : Nat) : Nat := n - (5 - k) * tss_test_size n

/-- Training indices of fold k: the contiguous prefix of positions
strictly before the evaluation block. -/
def tss_train_indices (n k : Nat) : List Nat := List.range (tss_test_start n k)

/-- Evaluation indices of fold k: the contiguous block of test_size
positions starting at the test start. -/
def tss_test_indices (n k : Nat) : List Nat :=
  (List.range (tss_test_size n)).map fun m => tss_test_start n k + m

/-- The five (train, evaluation) index folds that
cross_val_score(model, X, y, cv TimeSeriesSplit(5)) walks through in
train_and_evaluate. -/
def cv_folds (n : Nat) : List (List Nat × List Nat) :=
  (List.range 5).map fun k => (tss_train_indices n k, tss_test_indices n k)

/-- MAPE denominator used in train_and_evaluate (line 620) and
run_holdout_validation (line 98): np.maximum of the actual value and 1,
so that zero-lead days never divide by zero. -/
def mapeDenom (y : ℚ) : ℚ := max y 1

/-- Per-day terms of the mean-absolute-percentage-error computation:
absolute error of each (actual, predicted) pair divided by the floored
denominator. -/
def mapeTerms (actual pred : List ℚ) : List ℚ :=
  (actual.zip pred).map fun t => |t.1 - t.2| / mapeDenom t.1

/-- Embedding of the MAPE formula
np.mean(np.abs((y - y_pred) / np.maximum(y, 1))) * 100. -/
def mape (actual pred : List ℚ) : ℚ :=
  100 * meanQ (mapeTerms actual pred)

/-- Rounding to one decimal place, embedding round(x, 1) applied to the
reported projection values. -/
def roundQ1 (x : ℚ) : ℚ := (round (10 * x) : ℤ) / 10

/-- ISO week number of the date (Feb 15 of 2025) + dos days, for the
day-of-season offsets the projection uses.  Feb 15 2025 lies in ISO week
7, and its offset from the Monday opening ISO week 1 of 2025 is 47
days, so the week of the shifted date is (47 + dos) / 7 + 1.  This
embeds base_date.isocalendar()[1] of build_seasonal_projection for the
fixed 2025 base year. -/
def projWeek (dos : Int) : Nat := ((47 + dos).toNat) / 7 + 1

/-- Calendar month of the date (Feb 15 of 2025) + dos days, embedding
base_date.month of build_seasonal_projection (2025 is not a leap
year). -/
def projMonth (dos : Int) : Nat :=
  if dos ≤ 13 then 2 else if dos ≤ 44 then 3 else if dos ≤ 74 then 4 else 5

/-- Weekday names used for the dow_name column of the projection. -/
def dowNames : List String := ["Mon", "Tue", "Wed", "Thu", "Fri", "Sat", "Sun"]

/-- Rows of the full-years table whose day_of_season equals d: the group
that groupby(day_of_season) forms for key d in
build_seasonal_projection. -/
def dosGroup (rows : List MRow) (d : Int) : List MRow :=
  rows.filter fun r => r.day_of_season == d

/-- Synthetic feature vector of the projection, one per (day-of-season,
weekday) pair: the fields of feature_cols in the order the model was
trained on. -/
structure FeatureVec where
  dow : Nat
  is_weekend : ℚ
  is_saturday : ℚ
  day_of_season : Int
  week_num : Nat
  month : Nat
  temp_max : Option ℚ
  temp_mean : Option ℚ
  sunshine_hrs : Option ℚ
  precip_in : Option ℚ
  snowfall_in : Option ℚ
  wind_max_mph : Option ℚ
  is_snow : ℚ
  is_rainy : ℚ
  is_sunny : ℚ
  temp_max_3d_avg : Option ℚ
  sunshine_3d_avg : Option ℚ
  year_trend : ℚ
deriving DecidableEq, Repr

/-- Synthetic feature vector built by build_seasonal_projection
(src/analysis/lawn_lead_prediction.py lines 758-827) for day-of-season d
and weekday dw: across-years averages of the weather fields of the
day-of-season group, the calendar attributes of the weekday and of the
2025-based projected date, flags recomputed from the averaged weather,
3-day averages set to the plain averages, and year_trend fixed at 4,
the trend value of 2025, the most recent year of the full-years
filter. -/
def projFeatureVec (rows : List MRow) (d : Int) (dw : Nat) : FeatureVec :=
  let g := dosGroup (full_years_filter rows) d
  let avgSnow := meanOpt (g.map fun r => r.w.snowfall_in)
  let avgPrecip := meanOpt (g.map fun r => r.w.precip_in)
  let avgSun := meanOpt (g.map fun r => r.w.sunshine_hrs)
  let avgTemp := meanOpt (g.map fun r => r.w.temp_max)
  { dow := dw
    is_weekend := if 5 ≤ dw then 1 else 0
    is_saturday := if dw = 5 then 1 else 0
    day_of_season := d
    week_num := projWeek d
    month := projMonth d
    temp_max := avgTemp
    temp_mean := meanOpt (g.map fun r => r.temp_mean)
    sunshine_hrs := avgSun
    precip_in := avgPrecip
    snowfall_in := avgSnow
    wind_max_mph := meanOpt (g.map fun r => r.wind_max_mph)
    is_snow := if avgSnow.getD 0 > 1/20 then 1 else 0
    is_rainy := if avgPrecip.getD 0 > 1/10 then 1 else 0
    is_sunny := if avgSun.getD 0 ≥ 8 then 1 else 0
    temp_max_3d_avg := avgTemp
    sunshine_3d_avg := avgSun
    year_trend := 4 }

/-- One row of the seasonal projection table. -/
structure ProjRow where
  day_of_season : Int
  dow : Nat
  dow_name : String
  predicted_leads : ℚ
  historical_avg : ℚ
  historical_std : ℚ
deriving DecidableEq, Repr

/-- Projection row for day-of-season d and weekday dw: the model
prediction on the synthetic feature vector, and the across-years mean
and standard deviation of actual leads of that day-of-season carried
alongside.  The numeric standard-deviation kernel of the library is
abstracted as stdFn (none embeds the missing value it yields on a
single observation, which the source replaces by 0). -/
def projRowMk (model : FeatureVec → ℚ) (stdFn : List ℚ → Option ℚ)
    (rows : List MRow) (d : Int) (dw : Nat) : ProjRow :=
  let leads := (dosGroup (full_years_filter rows) d).map MRow.total_leads
  { day_of_season := d
    dow := dw
    dow_name := dowNames.getD dw ("")
    predicted_leads := roundQ1 (model (projFeatureVec rows d dw))
    historical_avg := roundQ1 (meanQ leads)
    historical_std := match stdFn leads with
      | some s => roundQ1 s
      | none => 0 }

/-- Embedding of build_seasonal_projection: for every distinct
day-of-season value of the full-years table (groupby enumerates each
distinct key once; dedup keeps the first-occurrence order, the same set
of keys), emit one projection row per weekday 0..6. -/
def build_seasonal_projection (model : FeatureVec → ℚ) (stdFn : List ℚ → Option ℚ)
    (rows : List MRow) : List ProjRow :=
  let fy := full_years_filter rows
  (((fy.map fun r => r.day_of_season)).dedup).flatMap fun d =>
    (List.range 7).map fun dw => projRowMk model stdFn rows d dw

/-- Character-list test: hay begins with pat. -/
def startsChars : List Char → List Char → Bool
  | [], _ => true
  | _ :: _, [] => false
  | a :: as, b :: bs => a = b && startsChars as bs

/-- Character-list substring test: pat occurs somewhere in hay,
embedding the Python containment test (pat in s). -/
def hasSub (pat : List Char) : List Char → Bool
  | [] => startsChars pat []
  | c :: rest => startsChars pat (c :: rest) || hasSub pat rest

/-- Embedding of classify_source (src/analysis/lawn_lead_prediction.py
lines 76-81): uppercase the source string (modelled at character level
as the per-character uppercase map), classify as Direct Mail when it
starts with DM or contains DIRECT MAIL, otherwise as Organic/Digital. -/
def classify_source (source : String) : String :=
  let s := source.data.map Char.toUpper
  if startsChars (("DM").data) s || hasSub (("DIRECT MAIL").data) s
  then ("Direct Mail") else ("Organic/Digital")

/-- One raw lead record as consumed by aggregate_daily: its day ordinal
and free-text source description. -/
structure LeadRow where
  date : Int
  source : String
deriving DecidableEq, Repr

/-- Total daily lead count of aggregate_daily
(src/analysis/lawn_lead_prediction.py lines 95-118): the size of the
group of raw leads of day d. -/
def daily_total_leads (leads : List LeadRow) (d : Int) : Nat :=
  (leads.filter fun l => l.date == d).length

/-- Direct-mail daily lead count: the size of the day-d group restricted
to rows classified Direct Mail (days with no such row get 0 through the
left merge and fillna of the source). -/
def daily_dm_leads (leads : List LeadRow) (d : Int) : Nat :=
  (leads.filter fun l => l.date == d && classify_source l.source == "Direct Mail").length

/-- Organic/digital daily lead count, symmetric to daily_dm_leads. -/
def daily_organic_leads (leads : List LeadRow) (d : Int) : Nat :=
  (leads.filter fun l => l.date == d && classify_source l.source == "Organic/Digital").length

/-- Sample weather row giving quality nice: 9 hours of sunshine, 60
degrees, no precipitation or snow. -/
def wNiceSample : WRow := ⟨some 60, some 0, some 0, some 0, some 9, some 0⟩

/-- Sample weather row with all fields missing. -/
def wNoneSample : WRow := ⟨none, none, none, none, none, none⟩

/-- Sample merged row of the 2024 season. -/
def rowA : MRow :=
  { date := 0, year := 2024, dow := 2, day_of_season := 10, total_leads := 5
    temp_mean := none, wind_max_mph := none
    w := ⟨some 50, some 0, some 0, some 0, some 6, some 0⟩ }

/-- Sample merged row of the 2025 season, the first 2025 row of
rowsSample. -/
def rowB : MRow :=
  { date := 1, year := 2025, dow := 3, day_of_season := 0, total_leads := 7
    temp_mean := none, wind_max_mph := none
    w := ⟨some 70, none, none, none, some 9, none⟩ }

/-- Sample two-year merged table: one 2024 row followed by one 2025
row, in date order. -/
def rowsSample : List MRow := [rowA, rowB]

theorem classify_source_total (s : String) :
    classify_source s = "Direct Mail" ∨ classify_source s = "Organic/Digital" := by
  unfold classify_source
  by_cases h :
      (startsChars (("DM").data) (s.data.map Char.toUpper)
        || hasSub (("DIRECT MAIL").data) (s.data.map Char.toUpper)) = true
  · exact Or.inl (by simp [h])
  · exact Or.inr (by simp [h])

theorem dm_org_beq_false : (("Direct Mail" : String) == "Organic/Digital") = false := by decide

theorem org_dm_beq_false : (("Organic/Digital" : String) == "Direct Mail") = false := by decide

/-- C1: for every weather record the coarse condition classifier
returns exactly the label of the 6-rule priority list of spec section
4.1 evaluated in order, and in particular a record with rain exactly
0.25 inches and no snow classifies as Light Rain while rain strictly
above 0.25 inches with no snow classifies as Rain. -/
theorem C1_coarse_condition_classifier :
    (∀ row : WRow, classify_weather_condition row = spec_classify_condition row)
    ∧ (∀ row : WRow, row.snowfall_in.getD 0 ≤ 1/10 → row.snow_depth.getD 0 ≤ 1 →
        ((row.rain_in.getD 0 = 1/4 → classify_weather_condition row = "Light Rain")
          ∧ (1/4 < row.rain_in.getD 0 → classify_weather_condition row = "Rain"))) := by
  constructor
  · intro row
    rfl
  · intro row h1 h2
    constructor
    · intro hr
      simp only [classify_weather_condition]
      rw [if_neg (by push_neg; exact ⟨h1, h2⟩), hr]
      norm_num
    · intro hr
      simp only [classify_weather_condition]
      rw [if_neg (by push_neg; exact ⟨h1, h2⟩), if_pos hr]

/-- Witness for C1 at concrete records: rain exactly 1/4 inch (with 9
hours of sunshine, which the priority order must ignore) gives Light
Rain, rain 26/100 inch gives Rain. -/
theorem C1_coarse_condition_classifier_witness :
    ((⟨none, none, none, none, some 9, some (1/4)⟩ : WRow).snowfall_in.getD 0 ≤ 1/10
      ∧ (⟨none, none, none, none, some 9, some (1/4)⟩ : WRow).snow_depth.getD 0 ≤ 1
      ∧ (⟨none, none, none, none, some 9, some (1/4)⟩ : WRow).rain_in.getD 0 = 1/4)
    ∧ classify_weather_condition ⟨none, none, none, none, some 9, some (1/4)⟩ = "Light Rain"
    ∧ ((⟨none, none, none, none, some 9, some (26/100)⟩ : WRow).rain_in.getD 0 > 1/4
      ∧ classify_weather_condition ⟨none, none, none, none, some 9, some (26/100)⟩ = "Rain") :=
  ⟨⟨by norm_num, by norm_num, by norm_num⟩,
    (C1_coarse_condition_classifier.2 _ (by norm_num) (by norm_num)).1 (by norm_num),
    by norm_num,
    (C1_coarse_condition_classifier.2 _ (by norm_num) (by norm_num)).2 (by norm_num)⟩

/-- C3: both classifiers read every missing field through the explicit
neutral default of spec section 4.1 (so substituting the defaults for
the missing fields never changes the label), and a record with only
temp_max present classifies as Cloudy/Overcast coarsely and as bad for
quality; in particular missing sunshine is never treated as 8 or more
hours. -/
theorem C3_missing_field_defaults :
    (∀ row : WRow, classify_weather_condition (fillDefaults row) = classify_weather_condition row)
    ∧ (∀ row : WRow, classify_day_weather (fillDefaults row) = classify_day_weather row)
    ∧ (∀ t : ℚ,
        classify_weather_condition ⟨some t, none, none, none, none, none⟩ = "Cloudy/Overcast"
        ∧ classify_day_weather ⟨some t, none, none, none, none, none⟩ = Quality.bad) := by
  refine ⟨fun row => rfl, fun row => rfl, fun t => ⟨?_, ?_⟩⟩
  · norm_num [classify_weather_condition]
  · norm_num [classify_day_weather]

/-- C8: every per-day MAPE denominator is the maximum of the actual
value and 1, hence at least 1 and never zero, and the MAPE metric is
the mean of the per-day absolute errors divided by these floored
denominators, scaled by 100; the division-by-zero branch is
unreachable even for zero-lead days. -/
theorem C8_mape_denominator_floored :
    (∀ y : ℚ, 1 ≤ mapeDenom y)
    ∧ (∀ y : ℚ, mapeDenom y ≠ 0)
    ∧ (∀ actual pred : List ℚ,
        mapeTerms actual pred = (actual.zip pred).map fun t => |t.1 - t.2| / mapeDenom t.1)
    ∧ (∀ actual pred : List ℚ, mape actual pred = 100 * meanQ (mapeTerms actual pred)) := by
  refine ⟨fun y => le_max_right y 1, fun y => ?_, fun a p => rfl, fun a p => rfl⟩
  have h : (0 : ℚ) < max y 1 := lt_of_lt_of_le one_pos (le_max_right y 1)
  exact ne_of_gt h

/-- C9: the source classifier maps every raw lead source string into
exactly one of the two classes Direct Mail and Organic/Digital, so for
every day the direct-mail count plus the organic count equals the total
count in the daily aggregate. -/
theorem C9_source_partition :
    (∀ s : String, classify_source s = "Direct Mail" ∨ classify_source s = "Organic/Digital")
    ∧ (∀ (leads : List LeadRow) (d : Int),
        daily_dm_leads leads d + daily_organic_leads leads d = daily_total_leads leads d) := by
  refine ⟨classify_source_total, ?_⟩
  intro leads d
  induction leads with
  | nil => rfl
  | cons l t ih =>
    simp only [daily_dm_leads, daily_organic_leads, daily_total_leads, List.filter_cons] at ih ⊢
    rcases classify_source_total l.source with hc | hc <;>
      by_cases hd : (l.date == d) = true <;>
        simp [hd, hc, dm_org_beq_false, org_dm_beq_false] <;>
          omega

theorem streaksAux_length (qs : List Quality) :
    ∀ (nc bc : Nat) (p1 p2 : Option Quality),
      (streaksAux nc bc p1 p2 qs).length = qs.length := by
  induction qs with
  | nil => intro nc bc p1 p2; rfl
  | cons q rest ih => intro nc bc p1 p2; simp [streaksAux, ih]

theorem streaksAux_rec :
    ∀ (qs : List Quality) (nc bc : Nat) (p1 p2 : Option Quality) (i : Nat)
      (a b : StreakRow) (qa qb : Quality),
      (streaksAux nc bc p1 p2 qs)[i]? = some a →
      (streaksAux nc bc p1 p2 qs)[i+1]? = some b →
      qs[i]? = some qa → qs[i+1]? = some qb →
      b.nice_streak = (if qb = Quality.nice then a.nice_streak + 1 else 0)
      ∧ b.bad_streak = (if qb = Quality.bad then a.bad_streak + 1 else 0)
      ∧ b.prev_day_quality = some qa := by
  intro qs
  induction qs with
  | nil =>
    intro nc bc p1 p2 i a b qa qb ha hb hqa hqb
    simp [streaksAux] at ha
  | cons q rest ih =>
    intro nc bc p1 p2 i a b qa qb ha hb hqa hqb
    cases i with
    | zero =>
      cases rest with
      | nil => simp [streaksAux] at hb
      | cons r rest2 =>
        simp only [streaksAux, List.getElem?_cons_zero, List.getElem?_cons_succ,
          Option.some.injEq] at ha hb hqa hqb
        subst ha hb hqa hqb
        exact ⟨rfl, rfl, rfl⟩
    | succ j =>
      simp only [streaksAux, List.getElem?_cons_succ] at ha hb hqa hqb
      exact ih _ _ _ _ j a b qa qb ha hb hqa hqb

theorem build_streaks_year_head (q : Quality) (rest : List Quality) :
    (build_streaks_year (q :: rest))[0]? =
      some ⟨(if q = Quality.nice then 1 else 0), (if q = Quality.bad then 1 else 0), none, none⟩ := by
  simp [build_streaks_year, streaksAux]

/-- C2: within one year of date-ordered day qualities the streak rows
satisfy the recurrence nice_streak(i) = 1 + nice_streak(i-1) when
quality(i) is nice and 0 otherwise (symmetrically for bad_streak; an ok
day resets both), the first day starts from the initial state
(nice 0, bad 0, previous quality unknown), and the multi-year tracker
restarts that initial state at every year boundary so no state carries
over from the previous year. -/
theorem C2_streak_tracker :
    (∀ (qs : List Quality) (i : Nat) (a b : StreakRow) (q : Quality),
        (build_streaks_year qs)[i]? = some a →
        (build_streaks_year qs)[i+1]? = some b →
        qs[i+1]? = some q →
        b.nice_streak = (if q = Quality.nice then a.nice_streak + 1 else 0)
        ∧ b.bad_streak = (if q = Quality.bad then a.bad_streak + 1 else 0))
    ∧ (∀ (q : Quality) (rest : List Quality),
        (build_streaks_year (q :: rest))[0]? =
          some ⟨(if q = Quality.nice then 1 else 0), (if q = Quality.bad then 1 else 0),
            none, none⟩)
    ∧ (∀ (prevYears : List (List Quality)) (y : List Quality),
        build_streaks (prevYears ++ [y]) = build_streaks prevYears ++ [build_streaks_year y]) := by
  refine ⟨?_, build_streaks_year_head, ?_⟩
  · intro qs i a b q ha hb hq
    have hlen : i < qs.length := by
      have h2 : i < (build_streaks_year qs).length := by
        by_contra hcon
        push_neg at hcon
        rw [List.getElem?_eq_none hcon] at ha
        exact Option.noConfusion ha
      simpa [build_streaks_year, streaksAux_length] using h2
    have hqa : qs[i]? = some qs[i] := List.getElem?_eq_getElem hlen
    have h := streaksAux_rec qs 0 0 none none i a b qs[i] q ha hb hqa hq
    exact ⟨h.1, h.2.1⟩
  · intro prevYears y
    simp [build_streaks]

/-- Witness for C2 on the concrete quality sequence ok, nice, nice,
bad: day 2 extends the nice streak of day 1 by one. -/
theorem C2_streak_tracker_witness :
    ((build_streaks_year [Quality.ok, Quality.nice, Quality.nice, Quality.bad])[1]? =
        some ⟨1, 0, some Quality.ok, none⟩)
    ∧ ((build_streaks_year [Quality.ok, Quality.nice, Quality.nice, Quality.bad])[2]? =
        some ⟨2, 0, some Quality.nice, some Quality.ok⟩)
    ∧ ([Quality.ok, Quality.nice, Quality.nice, Quality.bad][2]? = some Quality.nice)
    ∧ ((⟨2, 0, some Quality.nice, some Quality.ok⟩ : StreakRow).nice_streak =
        (if Quality.nice = Quality.nice
          then (⟨1, 0, some Quality.ok, none⟩ : StreakRow).nice_streak + 1 else 0)
      ∧ (⟨2, 0, some Quality.nice, some Quality.ok⟩ : StreakRow).bad_streak =
        (if Quality.nice = Quality.bad
          then (⟨1, 0, some Quality.ok, none⟩ : StreakRow).bad_streak + 1 else 0)) :=
  ⟨by decide, by decide, by decide,
    C2_streak_tracker.1 [Quality.ok, Quality.nice, Quality.nice, Quality.bad] 1 _ _ _
      (by decide) (by decide) (by decide)⟩

/-- C10: the momentum pipeline removes Sundays before the streak scan,
so a Saturday and the following Monday become adjacent: the filtered
sequence of a week ending Saturday, Sunday, Monday is the filtered
prefix followed by the Saturday and the Monday, the streak rows do not
depend on the Sunday at all, the Monday row records the Saturday
quality as its previous-day quality, and a nice Monday extends the
Saturday nice streak by one regardless of the Sunday weather. -/
theorem C10_sunday_removal :
    ∀ (pre : List MDay) (sat sun mon : MDay),
      sat.dow = 5 → sun.dow = 6 → mon.dow = 0 →
      momentum_dow_filter (pre ++ [sat, sun, mon]) = momentum_dow_filter pre ++ [sat, mon]
      ∧ momentum_streaks_year (pre ++ [sat, sun, mon]) = momentum_streaks_year (pre ++ [sat, mon])
      ∧ (∀ (a b : StreakRow),
          (momentum_streaks_year (pre ++ [sat, sun, mon]))[(momentum_qualities pre).length]?
            = some a →
          (momentum_streaks_year (pre ++ [sat, sun, mon]))[(momentum_qualities pre).length + 1]?
            = some b →
          b.prev_day_quality = some (classify_day_weather sat.w)
          ∧ b.nice_streak =
              (if classify_day_weather mon.w = Quality.nice then a.nice_streak + 1 else 0)) := by
  intro pre sat sun mon hsat hsun hmon
  have hfil : momentum_dow_filter (pre ++ [sat, sun, mon]) = momentum_dow_filter pre ++ [sat, mon] := by
    simp [momentum_dow_filter, List.filter_append, hsat, hsun, hmon]
  have hfil2 : momentum_dow_filter (pre ++ [sat, mon]) = momentum_dow_filter pre ++ [sat, mon] := by
    simp [momentum_dow_filter, List.filter_append, hsat, hmon]
  have hq : momentum_qualities (pre ++ [sat, sun, mon]) =
      momentum_qualities pre ++ [classify_day_weather sat.w, classify_day_weather mon.w] := by
    unfold momentum_qualities
    rw [hfil, List.map_append]
    rfl
  have hq2 : momentum_qualities (pre ++ [sat, mon]) =
      momentum_qualities pre ++ [classify_day_weather sat.w, classify_day_weather mon.w] := by
    unfold momentum_qualities
    rw [hfil2, List.map_append]
    rfl
  refine ⟨hfil, ?_, ?_⟩
  · unfold momentum_streaks_year
    rw [hq, hq2]
  · intro a b ha hb
    have hqs1 : (momentum_qualities (pre ++ [sat, sun, mon]))[(momentum_qualities pre).length]?
        = some (classify_day_weather sat.w) := by
      rw [hq, List.getElem?_append_right (le_refl _)]
      simp
    have hqs2 : (momentum_qualities (pre ++ [sat, sun, mon]))[(momentum_qualities pre).length + 1]?
        = some (classify_day_weather mon.w) := by
      rw [hq, List.getElem?_append_right (by omega)]
      have hidx : (momentum_qualities pre).length + 1 - (momentum_qualities pre).length = 1 := by
        omega
      rw [hidx]
      simp
    have h := streaksAux_rec (momentum_qualities (pre ++ [sat, sun, mon])) 0 0 none none
      (momentum_qualities pre).length a b (classify_day_weather sat.w)
      (classify_day_weather mon.w) ha hb hqs1 hqs2
    exact ⟨h.2.2, h.1⟩

/-- Witness for C10 on a concrete Saturday, Sunday, Monday triple with
no earlier days: the Sunday has all weather fields missing while the
Saturday and Monday are nice. -/
theorem C10_sunday_removal_witness :
    ((⟨5, wNiceSample⟩ : MDay).dow = 5 ∧ (⟨6, wNoneSample⟩ : MDay).dow = 6
      ∧ (⟨0, wNiceSample⟩ : MDay).dow = 0)
    ∧ (momentum_dow_filter ([] ++ [⟨5, wNiceSample⟩, ⟨6, wNoneSample⟩, ⟨0, wNiceSample⟩])
        = momentum_dow_filter [] ++ [⟨5, wNiceSample⟩, ⟨0, wNiceSample⟩]
      ∧ momentum_streaks_year ([] ++ [⟨5, wNiceSample⟩, ⟨6, wNoneSample⟩, ⟨0, wNiceSample⟩])
        = momentum_streaks_year ([] ++ [⟨5, wNiceSample⟩, ⟨0, wNiceSample⟩])
      ∧ (∀ (a b : StreakRow),
          (momentum_streaks_year ([] ++ [⟨5, wNiceSample⟩, ⟨6, wNoneSample⟩, ⟨0, wNiceSample⟩]))[
            (momentum_qualities ([] : List MDay)).length]? = some a →
          (momentum_streaks_year ([] ++ [⟨5, wNiceSample⟩, ⟨6, wNoneSample⟩, ⟨0, wNiceSample⟩]))[
            (momentum_qualities ([] : List MDay)).length + 1]? = some b →
          b.prev_day_quality = some (classify_day_weather (⟨5, wNiceSample⟩ : MDay).w)
          ∧ b.nice_streak =
              (if classify_day_weather (⟨0, wNiceSample⟩ : MDay).w = Quality.nice
                then a.nice_streak + 1 else 0))) :=
  ⟨⟨rfl, rfl, rfl⟩, C10_sunday_removal [] ⟨5, wNiceSample⟩ ⟨6, wNoneSample⟩ ⟨0, wNiceSample⟩ rfl rfl rfl⟩

/-- C4: the cross-validation splitter of the model trainer is
chronological walk-forward with 5 splits over the date-sorted table:
every training index of a fold precedes every evaluation index of that
fold, so with strictly increasing dates every date of the evaluation
block is strictly later than every date of the training block, and the
five folds are exactly the pairs the trainer iterates. -/
theorem C4_walk_forward_folds (dates : List Int) (hsorted : dates.Pairwise (· < ·))
    (k i j : Nat) (hk : k < 5)
    (hi : i ∈ tss_train_indices dates.length k)
    (hj : j ∈ tss_test_indices dates.length k)
    (hi2 : i < dates.length) (hj2 : j < dates.length) :
    i < j ∧ dates[i] < dates[j]
    ∧ (cv_folds dates.length)[k]? =
        some (tss_train_indices dates.length k, tss_test_indices dates.length k) := by
  have h1 : i < tss_test_start dates.length k := List.mem_range.mp hi
  obtain ⟨m, hm, hjm⟩ := List.mem_map.mp hj
  have hij : i < j := by omega
  refine ⟨hij, List.pairwise_iff_getElem.mp hsorted i j hi2 hj2 hij, ?_⟩
  simp [cv_folds, List.getElem?_map, List.getElem?_range, hk]

/-- Witness for C4 on twelve strictly increasing dates: in fold 0 the
training block is positions 0 and 1 and the evaluation block positions
2 and 3, so date 1 of the training block precedes date 2 of the
evaluation block. -/
theorem C4_walk_forward_folds_witness :
    (([0, 1, 2, 3, 4, 5, 6, 7, 8, 9, 10, 11] : List Int).Pairwise (· < ·)
      ∧ 1 ∈ tss_train_indices ([0, 1, 2, 3, 4, 5, 6, 7, 8, 9, 10, 11] : List Int).length 0
      ∧ 2 ∈ tss_test_indices ([0, 1, 2, 3, 4, 5, 6, 7, 8, 9, 10, 11] : List Int).length 0)
    ∧ (1 < 2
      ∧ ([0, 1, 2, 3, 4, 5, 6, 7, 8, 9, 10, 11] : List Int).get ⟨1, by decide⟩
          < ([0, 1, 2, 3, 4, 5, 6, 7, 8, 9, 10, 11] : List Int).get ⟨2, by decide⟩
      ∧ (cv_folds ([0, 1, 2, 3, 4, 5, 6, 7, 8, 9, 10, 11] : List Int).length)[0]? =
          some (tss_train_indices ([0, 1, 2, 3, 4, 5, 6, 7, 8, 9, 10, 11] : List Int).length 0,
            tss_test_indices ([0, 1, 2, 3, 4, 5, 6, 7, 8, 9, 10, 11] : List Int).length 0)) :=
  ⟨⟨by decide, by decide, by decide⟩,
    C4_walk_forward_folds [0, 1, 2, 3, 4, 5, 6, 7, 8, 9, 10, 11] (by decide) 0 1 2
      (by decide) (by decide) (by decide) (by decide) (by decide)⟩

/-- C5: the holdout validation filters the input table to the years
2021-2025 before anything else, so removing 2026 partial-season rows
from the input leaves the prepared training and test tables unchanged,
and therefore every metric computed from them (MAE, R squared, MAPE,
season totals, weekly, day-of-week and weather-bucket breakdowns, all
functions of the fitted-on-train model evaluated on the two tables) is
identical on the two inputs. -/
theorem C5_holdout_2026_invariance (t : List MRow) :
    holdout_prep (t.filter fun r => r.year != 2026) = holdout_prep t
    ∧ ∀ (α : Type) (metrics : List ERow × List ERow → α),
        metrics (holdout_prep (t.filter fun r => r.year != 2026)) = metrics (holdout_prep t) := by
  have hf : full_years_filter (t.filter fun r => r.year != 2026) = full_years_filter t := by
    unfold full_years_filter
    rw [List.filter_filter]
    apply List.filter_congr
    intro r _
    by_cases h : r.year = 2026
    · simp [h]
    · simp [h]
  have hprep : holdout_prep (t.filter fun r => r.year != 2026) = holdout_prep t := by
    unfold holdout_prep
    rw [hf]
  exact ⟨hprep, fun α metrics => by rw [hprep]⟩

theorem engineer_features_getElem (rows : List MRow) (i : Nat) (r : MRow)
    (h : rows[i]? = some r) :
    (engineer_features rows)[i]? = some (engineerRow rows i r) := by
  unfold engineer_features
  rw [List.getElem?_map]
  rw [show rows.enum = List.enumFrom 0 rows from rfl]
  rw [List.getElem?_enumFrom]
  simp [h]

/-- C6: the engineered temp_max_3d_avg and sunshine_3d_avg of the row
at position i are trailing means over the last at most 3 same-year
observations up to and including that row (window length
min(same-year-prefix length, 3), at least 1 observation), they are
computed from the same-year sub-series only (so they never incorporate
a value of a previous year), and at the first row of a year the 3-day
average equals the own value of that row exactly. -/
theorem C6_trailing_3day_averages (rows : List MRow) (i : Nat) (r : MRow) (e : ERow)
    (hr : rows[i]? = some r) (he : (engineer_features rows)[i]? = some e) :
    (e.temp_max_3d_avg = roll3At rows (fun x => x.w.temp_max) i r.year
      ∧ e.sunshine_3d_avg = roll3At rows (fun x => x.w.sunshine_hrs) i r.year)
    ∧ (((sameYearPrefix rows i r.year).drop ((sameYearPrefix rows i r.year).length - 3)).length
        = min (sameYearPrefix rows i r.year).length 3)
    ∧ ((rows.take i).filter (fun x => x.year == r.year) = [] →
        e.temp_max_3d_avg = r.w.temp_max ∧ e.sunshine_3d_avg = r.w.sunshine_hrs)
    ∧ (∀ (rows2 : List MRow) (f : MRow → Option ℚ),
        sameYearPrefix rows i r.year = sameYearPrefix rows2 i r.year →
        roll3At rows f i r.year = roll3At rows2 f i r.year) := by
  have he2 : e = engineerRow rows i r := by
    have h3 := engineer_features_getElem rows i r hr
    rw [he] at h3
    exact Option.some.inj h3
  subst he2
  have hpre1 : ∀ hfirst : (rows.take i).filter (fun x => x.year == r.year) = [],
      sameYearPrefix rows i r.year = [r] := by
    intro hfirst
    unfold sameYearPrefix
    rw [List.take_succ, List.filter_append, hfirst, hr]
    simp
  refine ⟨⟨rfl, rfl⟩, ?_, ?_, ?_⟩
  · rw [List.length_drop]
    omega
  · intro hfirst
    constructor
    · show roll3At rows (fun x => x.w.temp_max) i r.year = r.w.temp_max
      rw [roll3At, hpre1 hfirst]
      cases hx : r.w.temp_max with
      | none => simp [meanOpt, hx]
      | some v => simp [meanOpt, hx]
    · show roll3At rows (fun x => x.w.sunshine_hrs) i r.year = r.w.sunshine_hrs
      rw [roll3At, hpre1 hfirst]
      cases hx : r.w.sunshine_hrs with
      | none => simp [meanOpt, hx]
      | some v => simp [meanOpt, hx]
  · intro rows2 f hsame
    unfold roll3At
    rw [hsame]

/-- Witness for C6 on the concrete two-year table rowsSample: position
1 is the first 2025 row, and its 3-day average equals its own values
even though a 2024 row precedes it in the table. -/
theorem C6_trailing_3day_averages_witness :
    (rowsSample[1]? = some rowB
      ∧ (engineer_features rowsSample)[1]? = some (engineerRow rowsSample 1 rowB)
      ∧ (rowsSample.take 1).filter (fun x => x.year == rowB.year) = [])
    ∧ (((engineerRow rowsSample 1 rowB).temp_max_3d_avg
          = roll3At rowsSample (fun x => x.w.temp_max) 1 rowB.year
        ∧ (engineerRow rowsSample 1 rowB).sunshine_3d_avg
          = roll3At rowsSample (fun x => x.w.sunshine_hrs) 1 rowB.year)
      ∧ (((sameYearPrefix rowsSample 1 rowB.year).drop
            ((sameYearPrefix rowsSample 1 rowB.year).length - 3)).length
          = min (sameYearPrefix rowsSample 1 rowB.year).length 3)
      ∧ ((rowsSample.take 1).filter (fun x => x.year == rowB.year) = [] →
          (engineerRow rowsSample 1 rowB).temp_max_3d_avg = rowB.w.temp_max
          ∧ (engineerRow rowsSample 1 rowB).sunshine_3d_avg = rowB.w.sunshine_hrs)
      ∧ (∀ (rows2 : List MRow) (f : MRow → Option ℚ),
          sameYearPrefix rowsSample 1 rowB.year = sameYearPrefix rows2 1 rowB.year →
          roll3At rowsSample f 1 rowB.year = roll3At rows2 f 1 rowB.year)) :=
  ⟨⟨rfl, rfl, rfl⟩,
    C6_trailing_3day_averages rowsSample 1 rowB (engineerRow rowsSample 1 rowB) rfl rfl⟩

theorem flatMap_filter_key {β : Type} (key : β → Int) (f : Int → List β)
    (hf : ∀ (k : Int) (b : β), b ∈ f k → key b = k) :
    ∀ (keys : List Int), keys.Nodup → ∀ d, d ∈ keys →
      (keys.flatMap f).filter (fun b => key b == d) = f d := by
  intro keys
  induction keys with
  | nil =>
    intro _ d hd
    simp at hd
  | cons k rest ih =>
    intro hnd d hd
    rw [List.flatMap_cons, List.filter_append]
    rcases List.mem_cons.mp hd with rfl | hdr
    · have h1 : (f d).filter (fun b => key b == d) = f d :=
        List.filter_eq_self.mpr (fun b hb => by simp [hf d b hb])
      have h2 : (rest.flatMap f).filter (fun b => key b == d) = [] := by
        apply List.filter_eq_nil_iff.mpr
        intro b hb
        obtain ⟨k2, hk2, hbk2⟩ := List.mem_flatMap.mp hb
        have hkb : key b = k2 := hf k2 b hbk2
        have hne : k2 ≠ d := fun hEq => (List.nodup_cons.mp hnd).1 (hEq ▸ hk2)
        simp [hkb, hne]
      rw [h1, h2, List.append_nil]
    · have hkd : k ≠ d := fun hEq => (List.nodup_cons.mp hnd).1 (hEq ▸ hdr)
      have h1 : (f k).filter (fun b => key b == d) = [] := by
        apply List.filter_eq_nil_iff.mpr
        intro b hb
        simp [hf k b hb, hkd]
      rw [h1, List.nil_append, ih (List.nodup_cons.mp hnd).2 d hdr]

/-- C7: for every day-of-season value present in the full-years table
the seasonal projection emits exactly 7 rows, one per weekday 0..6;
each such row carries the model prediction on the synthetic feature
vector of that (day-of-season, weekday) pair together with the
historical mean and standard deviation of actual leads of that
day-of-season, the synthetic vector fixes year_trend at 4, and every
year of the filtered table is at most 2025 (so when 2025 data is
present, 4 is exactly the trend of the most recent observed year). -/
theorem C7_seasonal_projection (model : FeatureVec → ℚ) (stdFn : List ℚ → Option ℚ)
    (rows : List MRow) (d : Int)
    (hd : d ∈ (full_years_filter rows).map fun r => r.day_of_season) :
    (((build_seasonal_projection model stdFn rows).filter
        fun p => p.day_of_season == d).map ProjRow.dow = List.range 7)
    ∧ (∀ p ∈ (build_seasonal_projection model stdFn rows).filter
        fun p => p.day_of_season == d,
        p.predicted_leads = roundQ1 (model (projFeatureVec rows d p.dow))
        ∧ p.historical_avg =
            roundQ1 (meanQ ((dosGroup (full_years_filter rows) d).map MRow.total_leads))
        ∧ p.historical_std =
            (match stdFn ((dosGroup (full_years_filter rows) d).map MRow.total_leads) with
              | some s => roundQ1 s
              | none => 0)
        ∧ (projFeatureVec rows d p.dow).year_trend = 4)
    ∧ (∀ y ∈ (full_years_filter rows).map MRow.year, y ≤ 2025) := by
  have hkey : ∀ (k : Int) (b : ProjRow),
      b ∈ (List.range 7).map (fun dw => projRowMk model stdFn rows k dw) →
      b.day_of_season = k := by
    intro k b hb
    obtain ⟨dw, _, rfl⟩ := List.mem_map.mp hb
    rfl
  have hblock : ((build_seasonal_projection model stdFn rows).filter
      fun p => p.day_of_season == d)
      = (List.range 7).map (fun dw => projRowMk model stdFn rows d dw) := by
    unfold build_seasonal_projection
    exact flatMap_filter_key ProjRow.day_of_season _ hkey _
      (List.nodup_dedup _) d (List.mem_dedup.mpr hd)
  refine ⟨?_, ?_, ?_⟩
  · rw [hblock, List.map_map]
    rw [show (ProjRow.dow ∘ fun dw => projRowMk model stdFn rows d dw) = id from rfl]
    exact List.map_id _
  · intro p hp
    rw [hblock] at hp
    obtain ⟨dw, hdw, rfl⟩ := List.mem_map.mp hp
    exact ⟨rfl, rfl, rfl, rfl⟩
  · intro y hy
    obtain ⟨r2, hr2, rfl⟩ := List.mem_map.mp hy
    have hpass := List.of_mem_filter hr2
    simp only [Bool.or_eq_true, beq_iff_eq] at hpass
    rcases hpass with ((((h | h) | h) | h) | h) <;> omega

/-- Witness for C7 on the one-row 2025 table: day-of-season 0 is
present, so the projection has its 7 weekday rows for it. -/
theorem C7_seasonal_projection_witness :
    ((0 : Int) ∈ (full_years_filter [rowB]).map (fun r => r.day_of_season))
    ∧ ((((build_seasonal_projection (fun _ => (0 : ℚ)) (fun _ => none) [rowB]).filter
          fun p => p.day_of_season == (0 : Int)).map ProjRow.dow = List.range 7)
      ∧ (∀ p ∈ (build_seasonal_projection (fun _ => (0 : ℚ)) (fun _ => none) [rowB]).filter
          fun p => p.day_of_season == (0 : Int),
          p.predicted_leads = roundQ1 ((fun _ => (0 : ℚ)) (projFeatureVec [rowB] 0 p.dow))
          ∧ p.historical_avg =
              roundQ1 (meanQ ((dosGroup (full_years_filter [rowB]) 0).map MRow.total_leads))
          ∧ p.historical_std =
              (match (fun _ => (none : Option ℚ))
                  ((dosGroup (full_years_filter [rowB]) 0).map MRow.total_leads) with
                | some s => roundQ1 s
                | none => 0)
          ∧ (projFeatureVec [rowB] 0 p.dow).year_trend = 4)
      ∧ (∀ y ∈ (full_years_filter [rowB]).map MRow.year, y ≤ 2025)) :=
  ⟨by decide, C7_seasonal_projection (fun _ => (0 : ℚ)) (fun _ => none) [rowB] 0 (by decide)⟩

end Lawn
